import Mathlib

/-!
# cloudflare-dns-updater: a shallow embedding of `main.go`

The program is a polling loop: detect the public IPv4 address and the global
IPv6 address of one interface, compare with the stored values, and PATCH two
DNS records when something moved.

Everything outside the process (the IP-detection endpoint, the interface, the
DNS provider, the scheduler that resolves a timer tie) is a `World`: a family
of answers indexed by the history of events so far.  Every function of the
program takes the history, appends the events it causes, and returns the
extended history together with its Go return values.
-/

namespace DnsUpdater

/-! ## Go library: `net.IP` -/

/-- Go `net.IP`: a byte slice. -/
abbrev IP := List Nat

/-- Go `net.IPv4(a, b, c, d)`: the 16-byte IPv4-mapped form. -/
def IPv4 (a b c d : Nat) : IP :=
  [0, 0, 0, 0, 0, 0, 0, 0, 0, 0, 0xff, 0xff, a, b, c, d]

/-- The prefix `v4InV6Prefix` of an IPv4-mapped address. -/
def v4InV6Prefix : List Nat := [0, 0, 0, 0, 0, 0, 0, 0, 0, 0, 0xff, 0xff]

def IPv4bcast : IP := IPv4 255 255 255 255
def IPv4zero : IP := IPv4 0 0 0 0
def IPv6unspecified : IP := [0, 0, 0, 0, 0, 0, 0, 0, 0, 0, 0, 0, 0, 0, 0, 0]
def IPv6loopback : IP := [0, 0, 0, 0, 0, 0, 0, 0, 0, 0, 0, 0, 0, 0, 0, 1]

/-- Go `IP.To4`: `none` stands for the nil slice. -/
def IP.To4 (ip : IP) : Option IP :=
  if ip.length = 4 then some ip
  else if ip.length = 16 ∧ (ip.take 10).all (fun b => b == 0) ∧
      ip.getD 10 0 = 0xff ∧ ip.getD 11 0 = 0xff then some (ip.drop 12)
  else none

/-- Go `IP.To16`: `none` stands for the nil slice. -/
def IP.To16 (ip : IP) : Option IP :=
  if ip.length = 4 then some (IPv4 (ip.getD 0 0) (ip.getD 1 0) (ip.getD 2 0) (ip.getD 3 0))
  else if ip.length = 16 then some ip
  else none

/-- Go `IP.Equal`: an IPv4 address and its 16-byte form are equal. -/
def IP.Equal (ip x : IP) : Bool :=
  if ip.length = x.length then ip == x
  else if ip.length = 4 ∧ x.length = 16 then x.take 12 == v4InV6Prefix && ip == x.drop 12
  else if ip.length = 16 ∧ x.length = 4 then ip.take 12 == v4InV6Prefix && ip.drop 12 == x
  else false

/-- Go `IP.IsUnspecified`. -/
def IP.IsUnspecified (ip : IP) : Bool :=
  IP.Equal ip IPv4zero || IP.Equal ip IPv6unspecified

/-- Go `IP.IsLoopback`. -/
def IP.IsLoopback (ip : IP) : Bool :=
  match IP.To4 ip with
  | some ip4 => ip4.getD 0 0 == 127
  | none => IP.Equal ip IPv6loopback

/-- Go `IP.IsMulticast`. -/
def IP.IsMulticast (ip : IP) : Bool :=
  match IP.To4 ip with
  | some ip4 => (ip4.getD 0 0) / 16 == 0xe
  | none => ip.length == 16 && ip.getD 0 0 == 0xff

/-- Go `IP.IsLinkLocalUnicast`. -/
def IP.IsLinkLocalUnicast (ip : IP) : Bool :=
  match IP.To4 ip with
  | some ip4 => ip4.getD 0 0 == 169 && ip4.getD 1 0 == 254
  | none => ip.length == 16 && ip.getD 0 0 == 0xfe && (ip.getD 1 0) / 64 == 2

/-- Go `IP.IsGlobalUnicast`. -/
def IP.IsGlobalUnicast (ip : IP) : Bool :=
  (ip.length == 4 || ip.length == 16) &&
    !IP.Equal ip IPv4bcast &&
    !IP.IsUnspecified ip &&
    !IP.IsLoopback ip &&
    !IP.IsMulticast ip &&
    !IP.IsLinkLocalUnicast ip

/-- One lower-case hexadecimal digit. -/
def hexDigit (n : Nat) : Char :=
  "0123456789abcdef".toList.getD n '?'

/-- A 16-bit group in lower-case hexadecimal without leading zeros. -/
def hexGroup (v : Nat) : List Char :=
  if v < 0x10 then [hexDigit v]
  else if v < 0x100 then [hexDigit (v / 0x10), hexDigit (v % 0x10)]
  else if v < 0x1000 then [hexDigit (v / 0x100), hexDigit (v / 0x10 % 0x10), hexDigit (v % 0x10)]
  else [hexDigit (v / 0x1000 % 0x10), hexDigit (v / 0x100 % 0x10), hexDigit (v / 0x10 % 0x10),
        hexDigit (v % 0x10)]

/-- The eight 16-bit groups of a 16-byte address. -/
def groups16 : List Nat → List Nat
  | hi :: lo :: rest => (hi * 256 + lo) :: groups16 rest
  | _ => []

/-- Length of the run of zero groups at the head of a list. -/
def zeroRun : List Nat → Nat
  | 0 :: rest => zeroRun rest + 1
  | _ => 0

/-- The leftmost longest run of at least two zero groups, as `(start, end)`;
`start = 255` when there is none.  `i` is the index of the head of `gs`. -/
def longestZeroRun : List Nat → Nat → Nat × Nat → Nat × Nat
  | [], _, best => best
  | g :: rest, i, best =>
    let l := zeroRun (g :: rest)
    let best1 := if l ≥ 2 ∧ l > best.2 - best.1 then (i, i + l) else best
    longestZeroRun rest (i + 1) best1

/-- Text of the groups from index `i` on, with the run `z` written `::`. -/
def renderGroups (z : Nat × Nat) : List Nat → Nat → List Char
  | [], _ => []
  | g :: rest, i =>
    if z.1 ≤ i ∧ i < z.2 then
      (if i = z.1 then [':', ':'] else []) ++ renderGroups z rest (i + 1)
    else
      (if i > 0 ∧ i ≠ z.2 then [':'] else []) ++ hexGroup g ++ renderGroups z rest (i + 1)

/-- Dotted-decimal text of a 4-byte address. -/
def dotted (ip4 : IP) : String :=
  ".".intercalate (ip4.map (fun b => toString b))

/-- Go `IP.String`: dotted decimal for an IPv4 address, RFC 5952 text for a
16-byte address, `<nil>` for the empty slice, `?` and the bytes in hexadecimal
for any other length. -/
def IP.String (ip : IP) : String :=
  if ip.length = 0 then "<nil>"
  else if ip.length ≠ 4 ∧ ip.length ≠ 16 then
    String.mk ('?' :: (ip.map (fun b => [hexDigit (b / 16), hexDigit (b % 16)])).flatten)
  else
    match IP.To4 ip with
    | some ip4 => dotted ip4
    | none =>
      let gs := groups16 ip
      String.mk (renderGroups (longestZeroRun gs 0 (255, 255)) gs 0)

/-! ## Go library: `strconv.Atoi`, `time.Duration` -/

/-- Largest and smallest value of Go `int` on a 64-bit platform. -/
def maxInt : Int := 2 ^ 63 - 1
def minInt : Int := -(2 ^ 63)

/-- Two's-complement wrap-around of 64-bit signed arithmetic. -/
def wrap64 (x : Int) : Int := (x + 2 ^ 63) % 2 ^ 64 - 2 ^ 63

/-- The two errors of the `strconv` package. -/
inductive NumError
  | ErrSyntax
  | ErrRange
  deriving DecidableEq, Repr

/-- Value of a run of ASCII decimal digits read left to right from the
accumulator `n`; `none` at the first byte that is not a digit. -/
def atoiDigits : List Char → Nat → Option Nat
  | [], n => some n
  | ch :: rest, n =>
    if '0' ≤ ch ∧ ch ≤ '9' then atoiDigits rest (n * 10 + (ch.toNat - '0'.toNat)) else none

/-- Go `strconv.Atoi` with a 64-bit `int`: an optional sign, then one or more
decimal digits (base 10, no underscores); a value outside the range of `int`
is a range error. -/
def Atoi (s : String) : Except NumError Int :=
  match s.toList with
  | [] => .error .ErrSyntax
  | s0 :: rest =>
    let digits := if s0 = '-' ∨ s0 = '+' then rest else s0 :: rest
    if digits.isEmpty then .error .ErrSyntax
    else
      match atoiDigits digits 0 with
      | none => .error .ErrSyntax
      | some un =>
        let n : Int := if s0 = '-' then -(un : Int) else (un : Int)
        if n < minInt ∨ maxInt < n then .error .ErrRange else .ok n

/-- Go `time.Millisecond`, in nanoseconds. -/
def Millisecond : Int := 1000000

/-! ## Data model -/

/-- Error values: the text of a Go `error`. -/
abbrev Err := String

/-- Go `net.Interface`, the fields the program reads. -/
structure NetInterface where
  Index : Nat
  Name : String
  deriving DecidableEq, Repr

/-- Go `net.Addr` as returned by `Interface.Addrs`: either a `*net.IPNet` or a
value of another implementing type. -/
inductive Addr
  | ipNet (ip : IP) (mask : List Nat)
  | other (text : String)
  deriving DecidableEq, Repr

/-- The struct `AppState` of `main.go`. -/
structure AppState where
  apiKey : String
  zoneId : String
  ipv4RecordId : String
  ipv6RecordId : String
  ipv4Address : String
  ipv6Address : String
  updateRequired : Bool
  sleep : Int
  networkInterface : NetInterface
  deriving DecidableEq, Repr

/-- An HTTP request as built by `updateDNSRecord`. -/
structure Request where
  method : String
  url : String
  body : String
  header : List (String × String)
  deriving DecidableEq, Repr

/-- An HTTP response: the status code and the bytes `io.ReadAll` got from it. -/
structure Response where
  statusCode : Nat
  body : String
  deriving DecidableEq, Repr

/-- What `http.Get` followed by `io.ReadAll` can yield. -/
inductive GetResult
  | transportError (e : Err)
  | readError (e : Err)
  | body (b : String)
  deriving DecidableEq, Repr

/-- What `Interface.Addrs` can yield. -/
inductive AddrsResult
  | error (e : Err)
  | ok (addresses : List Addr)
  deriving DecidableEq, Repr

/-- What `http.DefaultClient.Do` can yield. -/
inductive DoResult
  | error (e : Err)
  | ok (response : Response)
  deriving DecidableEq, Repr

/-- Observable events of a run, in order.  `enterUpdateDNSRecord` marks an
invocation of `updateDNSRecord` with its four arguments; the others are the
program's own outputs and calls to the outside. -/
inductive Event
  | println (text : String)
  | printResponse (response : Response)
  | printError (e : Err)
  | httpGet (r : GetResult)
  | interfaceAddrs (ifi : NetInterface) (r : AddrsResult)
  | enterUpdateDNSRecord (apiKey zoneId recordId ipAddress : String)
  | httpDo (request : Request) (r : DoResult)
  | slept (d : Int)
  deriving DecidableEq, Repr

abbrev Trace := List Event

/-- The outside of the process.  Each answer may depend on everything that
happened so far. -/
structure World where
  /-- The call `http.Get("https://ifconfig.me/ip")` and the read of its body. -/
  httpGet : Trace → GetResult
  /-- The call `networkInterface.Addrs()`. -/
  interfaceAddrs : Trace → NetInterface → AddrsResult
  /-- Whether `http.NewRequest` can parse the URL. -/
  parseURL : String → Bool
  /-- The call `http.DefaultClient.Do(request)` and the read of the response body. -/
  httpDo : Trace → Request → DoResult
  /-- Which of two timers that are due together the `select` takes:
  `true` for the first case. -/
  selectTie : Trace → Bool

/-- A Go call either returns or panics. -/
inductive Outcome (α : Type)
  | returned (a : α)
  | panicked
  deriving DecidableEq, Repr

/-! ## The program -/

/-- Lines 65-72 of `main`: the poll interval from the value of `sleepTime`. -/
def sleepFromEnv (sleepValue : String) : Int :=
  let sleep : Int := 300000
  if sleepValue ≠ "" then
    match Atoi sleepValue with
    | .ok sleepInt => sleepInt
    | .error _ => sleep
  else sleep

/-- The loop body of lines 161-169 of `checkAddresses`, for one address. -/
def ipv6Step (appState : AppState) (address : Addr) : AppState :=
  match address with
  | .ipNet ip _ =>
    if !IP.IsLoopback ip && (IP.To4 ip).isNone && IP.IsGlobalUnicast ip && (IP.To16 ip).isSome then
      if appState.ipv6Address ≠ IP.String ip then
        { appState with ipv6Address := IP.String ip, updateRequired := true }
      else appState
    else appState
  | .other _ => appState

/-- The status line printed at the end of `checkAddresses`. -/
def statusMessage (appState : AppState) : String :=
  "\n Current public IP addresses on interface " ++ appState.networkInterface.Name ++
    ": \n " ++ appState.ipv4Address ++ " \n " ++ appState.ipv6Address

/-- The function `checkAddresses`: the extended trace, the returned state and
the returned error (`none` for nil). -/
def checkAddresses (w : World) (tr : Trace) (appState : AppState) :
    Trace × AppState × Option Err :=
  match w.httpGet tr with
  | .transportError e => (tr ++ [.httpGet (.transportError e)], appState, some e)
  | .readError e => (tr ++ [.httpGet (.readError e)], appState, some e)
  | .body ipv4Address =>
    let tr1 := tr ++ [.httpGet (.body ipv4Address)]
    let appState1 :=
      if appState.ipv4Address ≠ ipv4Address then
        { appState with ipv4Address := ipv4Address, updateRequired := true }
      else appState
    match w.interfaceAddrs tr1 appState1.networkInterface with
    | .error e =>
      (tr1 ++ [.interfaceAddrs appState1.networkInterface (.error e)], appState1, some e)
    | .ok addresses =>
      let tr2 := tr1 ++ [.interfaceAddrs appState1.networkInterface (.ok addresses)]
      let appState2 := addresses.foldl ipv6Step appState1
      (tr2 ++ [.println (statusMessage appState2)], appState2, none)

/-- The URL that `updateDNSRecord` addresses. -/
def recordURL (zoneId recordId : String) : String :=
  "https://api.cloudflare.com/client/v4/zones/" ++ zoneId ++ "/dns_records/" ++ recordId

/-- The JSON payload that `updateDNSRecord` sends. -/
def recordPayload (ipAddress : String) : String :=
  "\x7b\n\t\t\"content\": \"" ++ ipAddress ++ "\"\n\t  \x7d"

/-- The request that `updateDNSRecord` hands to the HTTP client. -/
def patchRequest (apiKey zoneId recordId ipAddress : String) : Request :=
  { method := "PATCH"
    url := recordURL zoneId recordId
    body := recordPayload ipAddress
    header := [("Content-Type", "application/json"), ("Authorization", "Bearer " ++ apiKey)] }

/-- The trace once `updateDNSRecord` has been entered and has printed its
first message: the history the HTTP client is called in. -/
def updateStart (tr : Trace) (apiKey zoneId recordId ipAddress : String) : Trace :=
  tr ++ [.enterUpdateDNSRecord apiKey zoneId recordId ipAddress,
         .println ("\n Updating DNS record " ++ recordId ++ " with IP address " ++ ipAddress ++ " \n")]

/-- The function `updateDNSRecord`: the extended trace and the returned error
(`none` for nil).  The error of `http.NewRequest` is discarded by the source,
so a URL that does not parse leaves `request` nil and `request.Header` panics. -/
def updateDNSRecord (w : World) (tr : Trace) (apiKey zoneId recordId ipAddress : String) :
    Trace × Outcome (Option Err) :=
  let tr1 := updateStart tr apiKey zoneId recordId ipAddress
  if w.parseURL (recordURL zoneId recordId) then
    let request := patchRequest apiKey zoneId recordId ipAddress
    match w.httpDo tr1 request with
    | .error e => (tr1 ++ [.httpDo request (.error e)], .returned (some e))
    | .ok response =>
      (tr1 ++ [.httpDo request (.ok response), .printResponse response, .println response.body],
        .returned none)
  else (tr1, .panicked)

/-- The function `runApp`: the extended trace, the returned state and the
returned error. -/
def runApp (w : World) (tr : Trace) (appState : AppState) :
    Trace × Outcome (AppState × Option Err) :=
  match checkAddresses w tr appState with
  | (tr0, appState0, some err0) => (tr0, .returned (appState0, some err0))
  | (tr0, appState0, none) =>
    if appState0.updateRequired then
      match updateDNSRecord w tr0 appState0.apiKey appState0.zoneId appState0.ipv4RecordId
          appState0.ipv4Address with
      | (tr1, .panicked) => (tr1, .panicked)
      | (tr1, .returned (some err1)) => (tr1, .returned (appState0, some err1))
      | (tr1, .returned none) =>
        match updateDNSRecord w tr1 appState0.apiKey appState0.zoneId appState0.ipv6RecordId
            appState0.ipv6Address with
        | (tr2, .panicked) => (tr2, .panicked)
        | (tr2, .returned (some err2)) => (tr2, .returned (appState0, some err2))
        | (tr2, .returned none) =>
          (tr2, .returned ({ appState0 with updateRequired := false }, none))
    else
      (tr0 ++ [.println " No update required"], .returned (appState0, none))

/-- The duration of the first timer of the `select`:
`time.Duration(appState.sleep) * time.Millisecond` in 64-bit arithmetic. -/
def sleepDuration (sleep : Int) : Int :=
  wrap64 (sleep * Millisecond)

/-- The duration of the second timer of the `select`:
`time.Duration(appState.sleep + 60000) * time.Millisecond` in 64-bit arithmetic. -/
def watchdogDuration (sleep : Int) : Int :=
  wrap64 (wrap64 (sleep + 60000) * Millisecond)

/-- When a timer started now fires: a timer with a non-positive duration
fires immediately. -/
def firesAfter (d : Int) : Int := max d 0

/-- The `select` of lines 98-105: `true` when the first case (the sleep timer)
is taken, `false` when the second one is.  The timer that fires first wins;
when both are due together the scheduler picks. -/
def selectSleepTimer (w : World) (tr : Trace) (sleep : Int) : Bool :=
  if firesAfter (sleepDuration sleep) < firesAfter (watchdogDuration sleep) then true
  else if firesAfter (watchdogDuration sleep) < firesAfter (sleepDuration sleep) then false
  else w.selectTie tr

/-- How the process ends. -/
inductive Exit
  | exit2
  | panicNoInterface
  | panicInterfaceNotFound
  | panicNilRequest
  | returnedOnError
  | returnedStuck
  | stillRunning
  deriving DecidableEq, Repr

/-- The loop of lines 88-106 of `main`, run for at most `fuel` cycles;
`stillRunning` when the fuel is used up. -/
def mainLoop (w : World) : Nat → Trace → AppState → Trace × Exit
  | 0, tr, _ => (tr, .stillRunning)
  | fuel + 1, tr, appState =>
    match runApp w tr appState with
    | (tr1, .panicked) => (tr1, .panicNilRequest)
    | (tr1, .returned (_, some err)) => (tr1 ++ [.printError err], .returnedOnError)
    | (tr1, .returned (newAppState, none)) =>
      if selectSleepTimer w tr1 newAppState.sleep then
        mainLoop w fuel (tr1 ++ [.slept (sleepDuration newAppState.sleep)]) newAppState
      else
        (tr1 ++ [.println "Application is stuck or unresponsive"], .returnedStuck)

/-- What `main` reads at startup. -/
structure Startup where
  /-- Whether `godotenv.Load` succeeds. -/
  dotenvLoaded : Bool
  /-- The function `os.Getenv`, after the load. -/
  getenv : String → String
  /-- The function `net.InterfaceByName`. -/
  interfaceByName : String → Option NetInterface

/-- Lines 28-85 of `main`: the initial state, or how startup ends the process. -/
def initialState (st : Startup) : Except (Trace × Exit) AppState :=
  if !st.dotenvLoaded then .error ([.println "Error loading .env file"], .exit2)
  else
    let ipv4Address := ""
    let ipv6Address := ""
    let updateRequired := true
    let networkInterfaceName := st.getenv "networkInterfaceName"
    if networkInterfaceName = "" then .error ([], .panicNoInterface)
    else
      match st.interfaceByName networkInterfaceName with
      | none => .error ([], .panicInterfaceNotFound)
      | some networkInterface =>
        .ok { apiKey := st.getenv "apiKey"
              zoneId := st.getenv "zoneId"
              ipv4Address := ipv4Address
              ipv6Address := ipv6Address
              ipv4RecordId := st.getenv "ipv4RecordId"
              ipv6RecordId := st.getenv "ipv6RecordId"
              updateRequired := updateRequired
              sleep := sleepFromEnv (st.getenv "sleepTime")
              networkInterface := networkInterface }

/-- The function `main`, its loop bounded by `fuel` cycles. -/
def main (st : Startup) (w : World) (fuel : Nat) : Trace × Exit :=
  match initialState st with
  | .error stop => stop
  | .ok appState => mainLoop w fuel [] appState

/-! ## Vocabulary of the specification -/

/-- An address the IPv6 step takes: a `*net.IPNet` that is not loopback, not
IPv4, global unicast, and has a 16-byte form. -/
def qualifies : Addr → Bool
  | .ipNet ip _ =>
    !IP.IsLoopback ip && (IP.To4 ip).isNone && IP.IsGlobalUnicast ip && (IP.To16 ip).isSome
  | .other _ => false

/-- The string form of an address, as the IPv6 step stores it. -/
def addrString : Addr → String
  | .ipNet ip _ => IP.String ip
  | .other text => text

/-- The invocations of `updateDNSRecord` recorded in a trace, with their
arguments `(apiKey, zoneId, recordId, ipAddress)`. -/
def updateCalls : Trace → List (String × String × String × String)
  | [] => []
  | .enterUpdateDNSRecord apiKey zoneId recordId ipAddress :: rest =>
    (apiKey, zoneId, recordId, ipAddress) :: updateCalls rest
  | _ :: rest => updateCalls rest

/-- The requests handed to the HTTP client (the PATCH calls) in a trace. -/
def patchCalls : Trace → List Request
  | [] => []
  | .httpDo request _ :: rest => request :: patchCalls rest
  | _ :: rest => patchCalls rest

/-- Whether an event is a call to the outside (network or interface). -/
def Event.isExternalCall : Event → Bool
  | .httpGet _ => true
  | .interfaceAddrs _ _ => true
  | .httpDo _ _ => true
  | _ => false

/-- Whether an event is a call to the outside that failed with error `e`. -/
def Event.failedWith (e : Err) : Event → Bool
  | .httpGet (.transportError e1) => e1 == e
  | .httpGet (.readError e1) => e1 == e
  | .interfaceAddrs _ (.error e1) => e1 == e
  | .httpDo _ (.error e1) => e1 == e
  | _ => false

/-- A valid base-10 integer in the words of the specification: an optional
sign followed by one or more decimal digits. -/
def isBase10Integer (s : String) : Bool :=
  match s.toList with
  | '-' :: ds => !ds.isEmpty && ds.all Char.isDigit
  | '+' :: ds => !ds.isEmpty && ds.all Char.isDigit
  | ds => !ds.isEmpty && ds.all Char.isDigit

/-- The integer a valid base-10 numeral denotes. -/
def base10Value (s : String) : Int :=
  let magnitude (ds : List Char) : Int :=
    ((ds.foldl (fun n ch => n * 10 + (ch.toNat - 48)) 0 : Nat) : Int)
  match s.toList with
  | '-' :: ds => -magnitude ds
  | '+' :: ds => magnitude ds
  | ds => magnitude ds

/-- The state after the IPv4 comparison of lines 151-154 of `checkAddresses`. -/
def afterIPv4 (appState : AppState) (ipv4Address : String) : AppState :=
  if appState.ipv4Address ≠ ipv4Address then
    { appState with ipv4Address := ipv4Address, updateRequired := true }
  else appState

/-- The trace once a PATCH issued in history `tr1` has been answered and the
answer printed. -/
def afterResponse (tr1 : Trace) (request : Request) (response : Response) : Trace :=
  tr1 ++ [.httpDo request (.ok response), .printResponse response, .println response.body]

/-! ## Concrete inputs -/

def eth0 : NetInterface := { Index := 2, Name := "eth0" }

/-- The address `2001:db8::1/64`. -/
def addrA : Addr :=
  .ipNet [0x20, 0x01, 0x0d, 0xb8, 0, 0, 0, 0, 0, 0, 0, 0, 0, 0, 0, 1]
    [255, 255, 255, 255, 255, 255, 255, 255, 0, 0, 0, 0, 0, 0, 0, 0]

/-- The address `2001:db8::2/64`. -/
def addrB : Addr :=
  .ipNet [0x20, 0x01, 0x0d, 0xb8, 0, 0, 0, 0, 0, 0, 0, 0, 0, 0, 0, 2]
    [255, 255, 255, 255, 255, 255, 255, 255, 0, 0, 0, 0, 0, 0, 0, 0]

/-- The link-local address `fe80::1/64`. -/
def addrLinkLocal : Addr :=
  .ipNet [0xfe, 0x80, 0, 0, 0, 0, 0, 0, 0, 0, 0, 0, 0, 0, 0, 1]
    [255, 255, 255, 255, 255, 255, 255, 255, 0, 0, 0, 0, 0, 0, 0, 0]

/-- The IPv4 address `192.168.1.10/24` of the interface. -/
def addrV4 : Addr := .ipNet [192, 168, 1, 10] [255, 255, 255, 0]

/-- A state as `main` builds it at startup. -/
def startState : AppState :=
  { apiKey := "key", zoneId := "zone", ipv4RecordId := "rec4", ipv6RecordId := "rec6"
    ipv4Address := "", ipv6Address := "", updateRequired := true, sleep := 300000
    networkInterface := eth0 }

/-- A state between two cycles: both addresses known, nothing to update. -/
def settledState : AppState :=
  { startState with
    ipv4Address := "1.2.3.4", ipv6Address := "2001:db8::1", updateRequired := false }

/-- The start-up state once the IPv4 address is known and pushed. -/
def quietState : AppState :=
  { startState with ipv4Address := "1.2.3.4", updateRequired := false }

/-- The settled state once the IPv4 address has moved to `5.6.7.8`. -/
def movedState : AppState := { settledState with ipv4Address := "5.6.7.8" }

/-- The state after a first cycle on an interface that has `addrA` and then
`addrB`: the last one is stored, nothing is left to update. -/
def twoAddressState : AppState :=
  { startState with
    ipv4Address := "1.2.3.4", ipv6Address := "2001:db8::2", updateRequired := false }

/-- A response of the provider: success. -/
def okResponse : Response := { statusCode := 200, body := "ok" }

/-- A response of the provider: the request is rejected. -/
def forbiddenResponse : Response := { statusCode := 403, body := "forbidden" }

/-- A world that always answers the same: the endpoint returns `body`, the
interface has `addresses`, every PATCH gets the response `response`. -/
def steadyWorld (body : String) (addresses : List Addr) (response : Response) : World :=
  { httpGet := fun _ => .body body
    interfaceAddrs := fun _ _ => .ok addresses
    parseURL := fun _ => true
    httpDo := fun _ _ => .ok response
    selectTie := fun _ => false }

/-- A world in which `http.NewRequest` cannot parse the record URL. -/
def unparsableWorld (body : String) (addresses : List Addr) : World :=
  { httpGet := fun _ => .body body
    interfaceAddrs := fun _ _ => .ok addresses
    parseURL := fun _ => false
    httpDo := fun _ _ => .ok okResponse
    selectTie := fun _ => false }

/-- A world in which every PATCH fails at transport level. -/
def refusingWorld (body : String) (addresses : List Addr) : World :=
  { httpGet := fun _ => .body body
    interfaceAddrs := fun _ _ => .ok addresses
    parseURL := fun _ => true
    httpDo := fun _ _ => .error "connection refused"
    selectTie := fun _ => false }

/-! ## Lemmas on the IPv6 step -/

theorem ipv6Step_eq (appState : AppState) (address : Addr) :
    ipv6Step appState address =
      if qualifies address then
        if appState.ipv6Address ≠ addrString address then
          { appState with ipv6Address := addrString address, updateRequired := true }
        else appState
      else appState := by
  cases address <;> rfl

theorem ipv6Step_of_not_qualifies (appState : AppState) (address : Addr)
    (h : qualifies address = false) : ipv6Step appState address = appState := by
  rw [ipv6Step_eq]; simp [h]

theorem ipv6Step_of_same (appState : AppState) (address : Addr)
    (h : appState.ipv6Address = addrString address) : ipv6Step appState address = appState := by
  rw [ipv6Step_eq]; simp [h]

theorem ipv6Step_ipv6Address (appState : AppState) (address : Addr)
    (h : qualifies address = true) :
    (ipv6Step appState address).ipv6Address = addrString address := by
  rw [ipv6Step_eq]
  by_cases hs : appState.ipv6Address = addrString address <;> simp [h, hs]

/-- One step changes nothing but `ipv6Address` and `updateRequired`, and never
clears `updateRequired`. -/
theorem ipv6Step_frame (appState : AppState) (address : Addr) :
    (ipv6Step appState address).apiKey = appState.apiKey ∧
    (ipv6Step appState address).zoneId = appState.zoneId ∧
    (ipv6Step appState address).ipv4RecordId = appState.ipv4RecordId ∧
    (ipv6Step appState address).ipv6RecordId = appState.ipv6RecordId ∧
    (ipv6Step appState address).ipv4Address = appState.ipv4Address ∧
    (ipv6Step appState address).sleep = appState.sleep ∧
    (ipv6Step appState address).networkInterface = appState.networkInterface ∧
    (appState.updateRequired = true → (ipv6Step appState address).updateRequired = true) := by
  rw [ipv6Step_eq]
  by_cases hq : qualifies address = true <;>
    by_cases hs : appState.ipv6Address = addrString address <;> simp [hq, hs]

theorem foldl_ipv6Step_frame (addresses : List Addr) (appState : AppState) :
    (addresses.foldl ipv6Step appState).apiKey = appState.apiKey ∧
    (addresses.foldl ipv6Step appState).zoneId = appState.zoneId ∧
    (addresses.foldl ipv6Step appState).ipv4RecordId = appState.ipv4RecordId ∧
    (addresses.foldl ipv6Step appState).ipv6RecordId = appState.ipv6RecordId ∧
    (addresses.foldl ipv6Step appState).ipv4Address = appState.ipv4Address ∧
    (addresses.foldl ipv6Step appState).sleep = appState.sleep ∧
    (addresses.foldl ipv6Step appState).networkInterface = appState.networkInterface ∧
    (appState.updateRequired = true →
      (addresses.foldl ipv6Step appState).updateRequired = true) := by
  induction addresses generalizing appState with
  | nil => simp
  | cons a rest ih =>
    obtain ⟨h1, h2, h3, h4, h5, h6, h7, h8⟩ := ipv6Step_frame appState a
    obtain ⟨k1, k2, k3, k4, k5, k6, k7, k8⟩ := ih (ipv6Step appState a)
    simp only [List.foldl_cons]
    exact ⟨k1.trans h1, k2.trans h2, k3.trans h3, k4.trans h4, k5.trans h5, k6.trans h6,
      k7.trans h7, fun h => k8 (h8 h)⟩

/-- With no qualifying address the loop is the identity. -/
theorem foldl_ipv6Step_of_none (addresses : List Addr) (appState : AppState)
    (h : ∀ a ∈ addresses, qualifies a = false) :
    addresses.foldl ipv6Step appState = appState := by
  induction addresses generalizing appState with
  | nil => rfl
  | cons a rest ih =>
    simp only [List.foldl_cons]
    rw [ipv6Step_of_not_qualifies appState a (h a (List.mem_cons_self a rest))]
    exact ih appState (fun b hb => h b (List.mem_cons_of_mem a hb))

/-- When every qualifying address already reads as the stored one the loop is
the identity. -/
theorem foldl_ipv6Step_of_same (addresses : List Addr) (appState : AppState)
    (h : ∀ a ∈ addresses, qualifies a = true → addrString a = appState.ipv6Address) :
    addresses.foldl ipv6Step appState = appState := by
  induction addresses generalizing appState with
  | nil => rfl
  | cons a rest ih =>
    have hstep : ipv6Step appState a = appState := by
      by_cases hq : qualifies a = true
      · exact ipv6Step_of_same appState a (h a (List.mem_cons_self a rest) hq).symm
      · exact ipv6Step_of_not_qualifies appState a (by simpa using hq)
    simp only [List.foldl_cons, hstep]
    exact ih appState (fun b hb => h b (List.mem_cons_of_mem a hb))

/-- After the loop the stored address is the last qualifying one. -/
theorem foldl_ipv6Step_last (addresses : List Addr) (appState : AppState) (a : Addr)
    (h : (addresses.filter qualifies).getLast? = some a) :
    (addresses.foldl ipv6Step appState).ipv6Address = addrString a := by
  induction addresses using List.reverseRecOn with
  | nil => simp at h
  | append_singleton rest x ih =>
    rw [List.foldl_append, List.foldl_cons, List.foldl_nil]
    by_cases hq : qualifies x = true
    · have hx : x = a := by
        simpa [List.filter_append, List.filter_cons, hq] using h
      rw [← hx]
      exact ipv6Step_ipv6Address _ x hq
    · have hq1 : qualifies x = false := by simpa using hq
      rw [ipv6Step_of_not_qualifies _ x hq1]
      apply ih
      simpa [List.filter_append, List.filter_cons, hq1] using h

/-! ## Lemmas on traces -/

theorem updateCalls_append (t1 t2 : Trace) :
    updateCalls (t1 ++ t2) = updateCalls t1 ++ updateCalls t2 := by
  induction t1 with
  | nil => rfl
  | cons ev rest ih => cases ev <;> simp [updateCalls, ih]

theorem patchCalls_append (t1 t2 : Trace) :
    patchCalls (t1 ++ t2) = patchCalls t1 ++ patchCalls t2 := by
  induction t1 with
  | nil => rfl
  | cons ev rest ih => cases ev <;> simp [patchCalls, ih]

/-! ## Lemmas on `checkAddresses` -/

theorem afterIPv4_networkInterface (appState : AppState) (b : String) :
    (afterIPv4 appState b).networkInterface = appState.networkInterface := by
  unfold afterIPv4; split <;> rfl

/-- The function `checkAddresses` by cases on what the world answers. -/
theorem checkAddresses_eq (w : World) (tr : Trace) (appState : AppState) :
    checkAddresses w tr appState =
      match w.httpGet tr with
      | .transportError e => (tr ++ [.httpGet (.transportError e)], appState, some e)
      | .readError e => (tr ++ [.httpGet (.readError e)], appState, some e)
      | .body b =>
        match w.interfaceAddrs (tr ++ [.httpGet (.body b)]) appState.networkInterface with
        | .error e =>
          (tr ++ [.httpGet (.body b), .interfaceAddrs appState.networkInterface (.error e)],
            afterIPv4 appState b, some e)
        | .ok addresses =>
          (tr ++ [.httpGet (.body b), .interfaceAddrs appState.networkInterface (.ok addresses),
                  .println (statusMessage (addresses.foldl ipv6Step (afterIPv4 appState b)))],
            addresses.foldl ipv6Step (afterIPv4 appState b), none) := by
  unfold checkAddresses
  cases w.httpGet tr with
  | transportError e => rfl
  | readError e => rfl
  | body b =>
    by_cases hb : appState.ipv4Address = b
    · simp only [afterIPv4, hb, ne_eq, not_true_eq_false, if_false]
      cases w.interfaceAddrs (tr ++ [.httpGet (.body b)]) appState.networkInterface <;> simp
    · simp only [afterIPv4, hb, ne_eq, not_false_eq_true, if_true]
      cases w.interfaceAddrs (tr ++ [.httpGet (.body b)]) appState.networkInterface <;> simp

/-- The result of a detection in which both reads succeed. -/
theorem checkAddresses_ok (w : World) (tr : Trace) (appState : AppState) (b : String)
    (addresses : List Addr) (hget : w.httpGet tr = .body b)
    (haddrs : w.interfaceAddrs (tr ++ [.httpGet (.body b)]) appState.networkInterface
      = .ok addresses) :
    checkAddresses w tr appState =
      (tr ++ [.httpGet (.body b), .interfaceAddrs appState.networkInterface (.ok addresses),
              .println (statusMessage (addresses.foldl ipv6Step (afterIPv4 appState b)))],
        addresses.foldl ipv6Step (afterIPv4 appState b), none) := by
  rw [checkAddresses_eq]
  simp only [hget, haddrs]

theorem afterIPv4_keeps_updateRequired (appState : AppState) (b : String)
    (h : appState.updateRequired = true) : (afterIPv4 appState b).updateRequired = true := by
  unfold afterIPv4; split <;> simp [h]

/-- Detection never clears `updateRequired`, whatever the outcome. -/
theorem checkAddresses_keeps_updateRequired (w : World) (tr : Trace) (appState : AppState)
    (h : appState.updateRequired = true) :
    (checkAddresses w tr appState).2.1.updateRequired = true := by
  rw [checkAddresses_eq]
  cases w.httpGet tr with
  | transportError e => exact h
  | readError e => exact h
  | body b =>
    have h2 := afterIPv4_keeps_updateRequired appState b h
    dsimp only
    cases w.interfaceAddrs (tr ++ [.httpGet (.body b)]) appState.networkInterface with
    | error e => exact h2
    | ok addresses => exact (foldl_ipv6Step_frame _ _).2.2.2.2.2.2.2 h2

/-- The events of a detection: the trace only grows, no `updateDNSRecord` is
entered and no PATCH is sent, and a failed detection ends with the call that
failed. -/
theorem checkAddresses_trace (w : World) (tr : Trace) (appState : AppState) :
    ∃ evs, (checkAddresses w tr appState).1 = tr ++ evs ∧ updateCalls evs = [] ∧
      patchCalls evs = [] ∧
      ∀ e, (checkAddresses w tr appState).2.2 = some e →
        ∃ pre ev, evs = pre ++ [ev] ∧ ev.failedWith e = true ∧ ev.isExternalCall = true := by
  rw [checkAddresses_eq]
  cases w.httpGet tr with
  | transportError e =>
    refine ⟨[.httpGet (.transportError e)], rfl, rfl, rfl, ?_⟩
    intro e1 he
    refine ⟨[], _, rfl, ?_, rfl⟩
    simp only [Option.some.injEq] at he
    simp [Event.failedWith, he]
  | readError e =>
    refine ⟨[.httpGet (.readError e)], rfl, rfl, rfl, ?_⟩
    intro e1 he
    refine ⟨[], _, rfl, ?_, rfl⟩
    simp only [Option.some.injEq] at he
    simp [Event.failedWith, he]
  | body b =>
    dsimp only
    cases w.interfaceAddrs (tr ++ [.httpGet (.body b)]) appState.networkInterface with
    | error e =>
      refine ⟨_, rfl, rfl, rfl, ?_⟩
      intro e1 he
      refine ⟨[.httpGet (.body b)], _, rfl, ?_, rfl⟩
      simp only [Option.some.injEq] at he
      simp [Event.failedWith, he]
    | ok addresses =>
      refine ⟨_, rfl, rfl, rfl, ?_⟩
      intro e1 he
      simp at he

/-! ## Lemmas on `updateDNSRecord` -/

theorem updateDNSRecord_of_response (w : World) (tr : Trace)
    (apiKey zoneId recordId ipAddress : String) (response : Response)
    (hurl : w.parseURL (recordURL zoneId recordId) = true)
    (hdo : w.httpDo (updateStart tr apiKey zoneId recordId ipAddress)
      (patchRequest apiKey zoneId recordId ipAddress) = .ok response) :
    updateDNSRecord w tr apiKey zoneId recordId ipAddress =
      (afterResponse (updateStart tr apiKey zoneId recordId ipAddress)
        (patchRequest apiKey zoneId recordId ipAddress) response, .returned none) := by
  simp [updateDNSRecord, hurl, hdo, afterResponse]

theorem updateDNSRecord_of_error (w : World) (tr : Trace)
    (apiKey zoneId recordId ipAddress : String) (e : Err)
    (hurl : w.parseURL (recordURL zoneId recordId) = true)
    (hdo : w.httpDo (updateStart tr apiKey zoneId recordId ipAddress)
      (patchRequest apiKey zoneId recordId ipAddress) = .error e) :
    updateDNSRecord w tr apiKey zoneId recordId ipAddress =
      (updateStart tr apiKey zoneId recordId ipAddress ++
        [.httpDo (patchRequest apiKey zoneId recordId ipAddress) (.error e)],
        .returned (some e)) := by
  simp [updateDNSRecord, hurl, hdo]

theorem updateDNSRecord_of_bad_url (w : World) (tr : Trace)
    (apiKey zoneId recordId ipAddress : String)
    (hurl : w.parseURL (recordURL zoneId recordId) = false) :
    updateDNSRecord w tr apiKey zoneId recordId ipAddress =
      (updateStart tr apiKey zoneId recordId ipAddress, .panicked) := by
  simp [updateDNSRecord, hurl]

/-- The events of one invocation: exactly one entry marker, at most one PATCH,
and on an error the failed PATCH is the last event. -/
theorem updateDNSRecord_trace (w : World) (tr : Trace)
    (apiKey zoneId recordId ipAddress : String) :
    ∃ evs, (updateDNSRecord w tr apiKey zoneId recordId ipAddress).1 = tr ++ evs ∧
      updateCalls evs = [(apiKey, zoneId, recordId, ipAddress)] ∧
      (∀ r, (updateDNSRecord w tr apiKey zoneId recordId ipAddress).2 = .returned r →
        patchCalls evs = [patchRequest apiKey zoneId recordId ipAddress]) ∧
      ∀ e, (updateDNSRecord w tr apiKey zoneId recordId ipAddress).2 = .returned (some e) →
        ∃ pre ev, evs = pre ++ [ev] ∧ ev.failedWith e = true ∧ ev.isExternalCall = true := by
  cases hurl : w.parseURL (recordURL zoneId recordId) with
  | false =>
    rw [updateDNSRecord_of_bad_url w tr apiKey zoneId recordId ipAddress hurl]
    refine ⟨_, rfl, rfl, ?_, ?_⟩ <;> intro _ h <;> simp at h
  | true =>
    cases hdo : w.httpDo (updateStart tr apiKey zoneId recordId ipAddress)
        (patchRequest apiKey zoneId recordId ipAddress) with
    | error e =>
      rw [updateDNSRecord_of_error w tr apiKey zoneId recordId ipAddress e hurl hdo]
      refine ⟨_, List.append_assoc _ _ _, rfl, fun _ _ => rfl, ?_⟩
      intro e1 he
      refine ⟨_, _, rfl, ?_, rfl⟩
      simp only [Outcome.returned.injEq, Option.some.injEq] at he
      simp [Event.failedWith, he]
    | ok response =>
      rw [updateDNSRecord_of_response w tr apiKey zoneId recordId ipAddress response hurl hdo]
      refine ⟨_, List.append_assoc _ _ _, rfl, fun _ _ => rfl, ?_⟩
      intro e1 he
      simp at he

/-- Detection changes nothing but the two addresses and `updateRequired`. -/
theorem checkAddresses_frame (w : World) (tr : Trace) (appState : AppState) :
    (checkAddresses w tr appState).2.1.apiKey = appState.apiKey ∧
    (checkAddresses w tr appState).2.1.zoneId = appState.zoneId ∧
    (checkAddresses w tr appState).2.1.ipv4RecordId = appState.ipv4RecordId ∧
    (checkAddresses w tr appState).2.1.ipv6RecordId = appState.ipv6RecordId ∧
    (checkAddresses w tr appState).2.1.sleep = appState.sleep ∧
    (checkAddresses w tr appState).2.1.networkInterface = appState.networkInterface := by
  have ha : ∀ b, (afterIPv4 appState b).apiKey = appState.apiKey ∧
      (afterIPv4 appState b).zoneId = appState.zoneId ∧
      (afterIPv4 appState b).ipv4RecordId = appState.ipv4RecordId ∧
      (afterIPv4 appState b).ipv6RecordId = appState.ipv6RecordId ∧
      (afterIPv4 appState b).sleep = appState.sleep ∧
      (afterIPv4 appState b).networkInterface = appState.networkInterface := by
    intro b; unfold afterIPv4; split <;> simp
  rw [checkAddresses_eq]
  cases w.httpGet tr with
  | transportError e => simp
  | readError e => simp
  | body b =>
    dsimp only
    obtain ⟨h1, h2, h3, h4, h5, h6⟩ := ha b
    cases w.interfaceAddrs (tr ++ [.httpGet (.body b)]) appState.networkInterface with
    | error e => exact ⟨h1, h2, h3, h4, h5, h6⟩
    | ok addresses =>
      obtain ⟨k1, k2, k3, k4, _, k6, k7, _⟩ :=
        foldl_ipv6Step_frame addresses (afterIPv4 appState b)
      exact ⟨k1.trans h1, k2.trans h2, k3.trans h3, k4.trans h4, k6.trans h5, k7.trans h6⟩

/-- After a successful detection the stored IPv4 address is the body read, and
`updateRequired` is set when the body differs from what was stored. -/
theorem checkAddresses_ipv4 (w : World) (tr tr0 : Trace) (appState appState0 : AppState)
    (b : String) (hget : w.httpGet tr = .body b)
    (hdet : checkAddresses w tr appState = (tr0, appState0, none)) :
    appState0.ipv4Address = b ∧
      (appState.ipv4Address ≠ b → appState0.updateRequired = true) := by
  have hb : (afterIPv4 appState b).ipv4Address = b ∧
      (appState.ipv4Address ≠ b → (afterIPv4 appState b).updateRequired = true) := by
    unfold afterIPv4
    by_cases h : appState.ipv4Address = b <;> simp [h]
  rw [checkAddresses_eq] at hdet
  simp only [hget] at hdet
  cases hadd : w.interfaceAddrs (tr ++ [.httpGet (.body b)]) appState.networkInterface with
  | error e => simp [hadd] at hdet
  | ok addresses =>
    simp only [hadd, Prod.mk.injEq] at hdet
    obtain ⟨_, hs, _⟩ := hdet
    obtain ⟨_, _, _, _, k5, _, _, k8⟩ := foldl_ipv6Step_frame addresses (afterIPv4 appState b)
    rw [← hs]
    exact ⟨k5.trans hb.1, fun h => k8 (hb.2 h)⟩

/-! ## Lemmas on `runApp` -/

/-- A cycle whose detection fails returns the detection's state and error. -/
theorem runApp_of_detection_error (w : World) (tr tr0 : Trace) (appState appState0 : AppState)
    (err0 : Err) (hdet : checkAddresses w tr appState = (tr0, appState0, some err0)) :
    runApp w tr appState = (tr0, .returned (appState0, some err0)) := by
  simp [runApp, hdet]

/-- A cycle that finds nothing to update. -/
theorem runApp_of_no_update (w : World) (tr tr0 : Trace) (appState appState0 : AppState)
    (hdet : checkAddresses w tr appState = (tr0, appState0, none))
    (hreq : appState0.updateRequired = false) :
    runApp w tr appState = (tr0 ++ [.println " No update required"],
      .returned (appState0, none)) := by
  simp [runApp, hdet, hreq]

/-- A cycle that has to update, in terms of the two invocations. -/
theorem runApp_of_update (w : World) (tr tr0 : Trace) (appState appState0 : AppState)
    (hdet : checkAddresses w tr appState = (tr0, appState0, none))
    (hreq : appState0.updateRequired = true) :
    runApp w tr appState =
      match updateDNSRecord w tr0 appState0.apiKey appState0.zoneId appState0.ipv4RecordId
          appState0.ipv4Address with
      | (tr1, .panicked) => (tr1, .panicked)
      | (tr1, .returned (some err1)) => (tr1, .returned (appState0, some err1))
      | (tr1, .returned none) =>
        match updateDNSRecord w tr1 appState0.apiKey appState0.zoneId appState0.ipv6RecordId
            appState0.ipv6Address with
        | (tr2, .panicked) => (tr2, .panicked)
        | (tr2, .returned (some err2)) => (tr2, .returned (appState0, some err2))
        | (tr2, .returned none) =>
          (tr2, .returned ({ appState0 with updateRequired := false }, none)) := by
  simp [runApp, hdet, hreq]

/-- The ways a cycle that has to update can return: an error of the first
invocation, an error of the second, or two successes. -/
theorem runApp_update_returns (w : World) (tr tr0 tr1 : Trace)
    (appState appState0 s1 : AppState) (err : Option Err)
    (hdet : checkAddresses w tr appState = (tr0, appState0, none))
    (hreq : appState0.updateRequired = true)
    (hrun : runApp w tr appState = (tr1, .returned (s1, err))) :
    (∃ e, err = some e ∧ s1 = appState0 ∧
      updateDNSRecord w tr0 appState0.apiKey appState0.zoneId appState0.ipv4RecordId
        appState0.ipv4Address = (tr1, .returned (some e))) ∨
    (∃ e t, err = some e ∧ s1 = appState0 ∧
      updateDNSRecord w tr0 appState0.apiKey appState0.zoneId appState0.ipv4RecordId
        appState0.ipv4Address = (t, .returned none) ∧
      updateDNSRecord w t appState0.apiKey appState0.zoneId appState0.ipv6RecordId
        appState0.ipv6Address = (tr1, .returned (some e))) ∨
    (∃ t, err = none ∧ s1 = { appState0 with updateRequired := false } ∧
      updateDNSRecord w tr0 appState0.apiKey appState0.zoneId appState0.ipv4RecordId
        appState0.ipv4Address = (t, .returned none) ∧
      updateDNSRecord w t appState0.apiKey appState0.zoneId appState0.ipv6RecordId
        appState0.ipv6Address = (tr1, .returned none)) := by
  rw [runApp_of_update w tr tr0 appState appState0 hdet hreq] at hrun
  rcases hu1 : updateDNSRecord w tr0 appState0.apiKey appState0.zoneId
    appState0.ipv4RecordId appState0.ipv4Address with ⟨t1, o1⟩
  rw [hu1] at hrun
  cases o1 with
  | panicked => simp at hrun
  | returned r1 =>
    cases r1 with
    | some e1 =>
      simp only [Prod.mk.injEq, Outcome.returned.injEq] at hrun
      obtain ⟨ht, hs, he⟩ := hrun
      exact Or.inl ⟨e1, he.symm, hs.symm, by rw [ht]⟩
    | none =>
      simp only at hrun
      rcases hu2 : updateDNSRecord w t1 appState0.apiKey appState0.zoneId
        appState0.ipv6RecordId appState0.ipv6Address with ⟨t2, o2⟩
      rw [hu2] at hrun
      cases o2 with
      | panicked => simp at hrun
      | returned r2 =>
        cases r2 with
        | some e2 =>
          simp only [Prod.mk.injEq, Outcome.returned.injEq] at hrun
          obtain ⟨ht, hs, he⟩ := hrun
          exact Or.inr (Or.inl ⟨e2, t1, he.symm, hs.symm, rfl, by rw [hu2, ht]⟩)
        | none =>
          simp only [Prod.mk.injEq, Outcome.returned.injEq] at hrun
          obtain ⟨ht, hs, he⟩ := hrun
          exact Or.inr (Or.inr ⟨t1, he.symm, hs.symm, rfl, by rw [hu2, ht]⟩)

/-- A cycle that returns an error ends with the call to the outside that
failed with it. -/
theorem runApp_error_trace (w : World) (tr tr1 : Trace) (appState s1 : AppState) (e : Err)
    (hrun : runApp w tr appState = (tr1, .returned (s1, some e))) :
    ∃ pre ev, tr1 = tr ++ pre ++ [ev] ∧ ev.failedWith e = true ∧ ev.isExternalCall = true := by
  obtain ⟨evs0, ht0, _, _, hfail0⟩ := checkAddresses_trace w tr appState
  rcases hdet : checkAddresses w tr appState with ⟨tr0, appState0, e0⟩
  rw [hdet] at ht0 hfail0
  simp only at ht0 hfail0
  cases e0 with
  | some err0 =>
    rw [runApp_of_detection_error w tr tr0 appState appState0 err0 hdet] at hrun
    simp only [Prod.mk.injEq, Outcome.returned.injEq, Option.some.injEq] at hrun
    obtain ⟨ht, _, he⟩ := hrun
    obtain ⟨pre, ev, hev, hf, hx⟩ := hfail0 err0 rfl
    refine ⟨pre, ev, ?_, by rw [← he]; exact hf, hx⟩
    rw [← ht, ht0, hev, List.append_assoc]
  | none =>
    cases hreq : appState0.updateRequired with
    | false =>
      rw [runApp_of_no_update w tr tr0 appState appState0 hdet hreq] at hrun
      simp at hrun
    | true =>
      rcases runApp_update_returns w tr tr0 tr1 appState appState0 s1 (some e) hdet hreq hrun
        with ⟨e1, he, _, hu⟩ | ⟨e1, t, he, _, hu1, hu⟩ | ⟨t, he, _⟩
      · obtain ⟨evs1, ht1, _, _, hfail1⟩ := updateDNSRecord_trace w tr0 appState0.apiKey
          appState0.zoneId appState0.ipv4RecordId appState0.ipv4Address
        rw [hu] at ht1 hfail1
        simp only at ht1
        obtain ⟨pre, ev, hev, hf, hx⟩ := hfail1 e1 rfl
        simp only [Option.some.injEq] at he
        refine ⟨evs0 ++ pre, ev, ?_, by rw [he]; exact hf, hx⟩
        rw [ht1, ht0, hev]
        simp only [List.append_assoc]
      · obtain ⟨evs1, ht1, _, _, _⟩ := updateDNSRecord_trace w tr0 appState0.apiKey
          appState0.zoneId appState0.ipv4RecordId appState0.ipv4Address
        obtain ⟨evs2, ht2, _, _, hfail2⟩ := updateDNSRecord_trace w t appState0.apiKey
          appState0.zoneId appState0.ipv6RecordId appState0.ipv6Address
        rw [hu1] at ht1
        rw [hu] at ht2 hfail2
        simp only at ht1 ht2
        obtain ⟨pre, ev, hev, hf, hx⟩ := hfail2 e1 rfl
        simp only [Option.some.injEq] at he
        refine ⟨evs0 ++ (evs1 ++ pre), ev, ?_, by rw [he]; exact hf, hx⟩
        rw [ht2, ht1, ht0, hev]
        simp only [List.append_assoc]
      · simp at he

/-! ## Lemmas on start-up -/

/-- The state `main` starts the loop with. -/
theorem initialState_ok (st : Startup) (appState : AppState)
    (h : initialState st = .ok appState) :
    appState.ipv4Address = "" ∧ appState.ipv6Address = "" ∧ appState.updateRequired = true ∧
      appState.sleep = sleepFromEnv (st.getenv "sleepTime") := by
  unfold initialState at h
  by_cases h1 : st.dotenvLoaded = true
  · by_cases h2 : st.getenv "networkInterfaceName" = ""
    · simp [h1, h2] at h
    · cases h3 : st.interfaceByName (st.getenv "networkInterfaceName") with
      | none => simp [h1, h2, h3] at h
      | some ni =>
        simp only [h1, h2, h3, Bool.not_true, Bool.false_eq_true, if_false,
          Except.ok.injEq] at h
        rw [← h]
        exact ⟨rfl, rfl, rfl, rfl⟩
  · simp [h1] at h

/-! ## The DNS updater: `updateDNSRecord` -/

/-- C4: `updateDNSRecord` returns an error exactly when the request was handed
to the HTTP client and the client reported a transport failure, and the error
is that failure; whenever a response is received, whatever its status code and
body, it returns nil. -/
theorem updateDNSRecord_error_iff_transport_failure (w : World) (tr : Trace)
    (apiKey zoneId recordId ipAddress : String) :
    (∀ e, (updateDNSRecord w tr apiKey zoneId recordId ipAddress).2 = .returned (some e) ↔
      (w.parseURL (recordURL zoneId recordId) = true ∧
        w.httpDo (updateStart tr apiKey zoneId recordId ipAddress)
          (patchRequest apiKey zoneId recordId ipAddress) = .error e)) ∧
    (∀ response, w.parseURL (recordURL zoneId recordId) = true →
      w.httpDo (updateStart tr apiKey zoneId recordId ipAddress)
        (patchRequest apiKey zoneId recordId ipAddress) = .ok response →
      (updateDNSRecord w tr apiKey zoneId recordId ipAddress).2 = .returned none) := by
  constructor
  · intro e
    cases hurl : w.parseURL (recordURL zoneId recordId) with
    | false =>
      rw [updateDNSRecord_of_bad_url w tr apiKey zoneId recordId ipAddress hurl]
      simp
    | true =>
      cases hdo : w.httpDo (updateStart tr apiKey zoneId recordId ipAddress)
          (patchRequest apiKey zoneId recordId ipAddress) with
      | error e1 =>
        rw [updateDNSRecord_of_error w tr apiKey zoneId recordId ipAddress e1 hurl hdo]
        simp
      | ok response =>
        rw [updateDNSRecord_of_response w tr apiKey zoneId recordId ipAddress response hurl hdo]
        simp
  · intro response hurl hdo
    rw [updateDNSRecord_of_response w tr apiKey zoneId recordId ipAddress response hurl hdo]

/-- C4 at a concrete input: a 403 response with an error body is reported as
success, and a refused connection as that error. -/
theorem updateDNSRecord_error_iff_transport_failure_witness :
    (updateDNSRecord (steadyWorld "1.2.3.4" [] forbiddenResponse) []
      "key" "zone" "rec4" "1.2.3.4").2 = .returned none ∧
    (updateDNSRecord (refusingWorld "1.2.3.4" []) [] "key" "zone" "rec4" "1.2.3.4").2
      = .returned (some "connection refused") :=
  ⟨(updateDNSRecord_error_iff_transport_failure
      (steadyWorld "1.2.3.4" [] forbiddenResponse) []
      "key" "zone" "rec4" "1.2.3.4").2 forbiddenResponse rfl rfl,
   ((updateDNSRecord_error_iff_transport_failure (refusingWorld "1.2.3.4" []) []
      "key" "zone" "rec4" "1.2.3.4").1 "connection refused").2 ⟨rfl, rfl⟩⟩

/-! ## The address detector: `checkAddresses` -/

/-- C5: when no address of the interface qualifies, a successful detection
leaves `ipv6Address` as it was (empty, from the state `main` starts with), and
`updateRequired` is the input flag or-ed with "the body read differs from the
stored IPv4 address": the IPv6 step contributes nothing. -/
theorem checkAddresses_without_qualifying_address (w : World) (tr : Trace)
    (appState : AppState) (b : String) (addresses : List Addr)
    (hget : w.httpGet tr = .body b)
    (haddrs : w.interfaceAddrs (tr ++ [.httpGet (.body b)]) appState.networkInterface
      = .ok addresses)
    (hnone : ∀ a ∈ addresses, qualifies a = false) :
    (checkAddresses w tr appState).2.2 = none ∧
    (checkAddresses w tr appState).2.1.ipv6Address = appState.ipv6Address ∧
    (checkAddresses w tr appState).2.1.updateRequired
      = (appState.updateRequired || decide (b ≠ appState.ipv4Address)) ∧
    (∀ st, initialState st = .ok appState →
      (checkAddresses w tr appState).2.1.ipv6Address = "") := by
  rw [checkAddresses_ok w tr appState b addresses hget haddrs,
    foldl_ipv6Step_of_none addresses _ hnone]
  have h6 : (afterIPv4 appState b).ipv6Address = appState.ipv6Address := by
    unfold afterIPv4; split <;> rfl
  have hu : (afterIPv4 appState b).updateRequired
      = (appState.updateRequired || decide (b ≠ appState.ipv4Address)) := by
    unfold afterIPv4
    by_cases h : appState.ipv4Address = b
    · simp [h]
    · have h1 : ¬ b = appState.ipv4Address := fun hb => h hb.symm
      simp [h, h1]
  refine ⟨rfl, h6, hu, ?_⟩
  intro st hst
  show (afterIPv4 appState b).ipv6Address = ""
  rw [h6]
  exact (initialState_ok st appState hst).2.1

/-- C5 at a concrete input: an interface with a link-local IPv6 address, an
IPv4 address and a non-IPNet address, from the start-up state. -/
theorem checkAddresses_without_qualifying_address_witness :
    (checkAddresses
      (steadyWorld "1.2.3.4" [addrLinkLocal, addrV4, .other "lo"] okResponse)
      [] quietState).2.1.ipv6Address = "" ∧
    (checkAddresses
      (steadyWorld "1.2.3.4" [addrLinkLocal, addrV4, .other "lo"] okResponse)
      [] quietState).2.1.updateRequired
      = false :=
  have h := checkAddresses_without_qualifying_address
    (steadyWorld "1.2.3.4" [addrLinkLocal, addrV4, .other "lo"] okResponse)
    [] quietState "1.2.3.4"
    [addrLinkLocal, addrV4, .other "lo"] rfl rfl (by decide)
  ⟨h.2.1, h.2.2.1⟩

/-- C9: when at least one address of the interface qualifies, a successful
detection stores the string form of the last qualifying address in
enumeration order, whatever was stored before and whatever else the list
holds. -/
theorem checkAddresses_stores_last_qualifying_address (w : World) (tr : Trace)
    (appState : AppState) (b : String) (addresses : List Addr) (a : Addr)
    (hget : w.httpGet tr = .body b)
    (haddrs : w.interfaceAddrs (tr ++ [.httpGet (.body b)]) appState.networkInterface
      = .ok addresses)
    (hlast : (addresses.filter qualifies).getLast? = some a) :
    (checkAddresses w tr appState).2.2 = none ∧
    (checkAddresses w tr appState).2.1.ipv6Address = addrString a := by
  rw [checkAddresses_ok w tr appState b addresses hget haddrs]
  exact ⟨rfl, foldl_ipv6Step_last addresses _ a hlast⟩

/-- C9 at a concrete input: two global addresses among others; the second one
is stored. -/
theorem checkAddresses_stores_last_qualifying_address_witness :
    (checkAddresses
      (steadyWorld "1.2.3.4" [addrA, addrLinkLocal, addrB, addrV4] okResponse)
      [] startState).2.1.ipv6Address = "2001:db8::2" :=
  (checkAddresses_stores_last_qualifying_address
    (steadyWorld "1.2.3.4" [addrA, addrLinkLocal, addrB, addrV4] okResponse)
    [] startState "1.2.3.4" [addrA, addrLinkLocal, addrB, addrV4] addrB rfl rfl (by decide)).2

/-! ## One cycle: `runApp` -/

/-- C2: when the body read differs from the stored IPv4 address, detection
succeeds and both PATCH requests get a response, the cycle enters
`updateDNSRecord` exactly twice, first for the IPv4 record with the new
address, then for the IPv6 record with the current IPv6 address, sends exactly
those two PATCH requests, returns no error and clears `updateRequired`. -/
theorem runApp_pushes_both_records (w : World) (tr tr0 : Trace)
    (appState appState0 : AppState) (b : String) (r1 r2 : Response)
    (hget : w.httpGet tr = .body b)
    (hne : appState.ipv4Address ≠ b)
    (hdet : checkAddresses w tr appState = (tr0, appState0, none))
    (hurl4 : w.parseURL (recordURL appState.zoneId appState.ipv4RecordId) = true)
    (hdo4 : w.httpDo
      (updateStart tr0 appState.apiKey appState.zoneId appState.ipv4RecordId b)
      (patchRequest appState.apiKey appState.zoneId appState.ipv4RecordId b) = .ok r1)
    (hurl6 : w.parseURL (recordURL appState.zoneId appState.ipv6RecordId) = true)
    (hdo6 : w.httpDo
      (updateStart
        (afterResponse (updateStart tr0 appState.apiKey appState.zoneId appState.ipv4RecordId b)
          (patchRequest appState.apiKey appState.zoneId appState.ipv4RecordId b) r1)
        appState.apiKey appState.zoneId appState.ipv6RecordId appState0.ipv6Address)
      (patchRequest appState.apiKey appState.zoneId appState.ipv6RecordId
        appState0.ipv6Address) = .ok r2) :
    ∃ evs, runApp w tr appState
        = (tr ++ evs, .returned ({ appState0 with updateRequired := false }, none)) ∧
      updateCalls evs =
        [(appState.apiKey, appState.zoneId, appState.ipv4RecordId, b),
         (appState.apiKey, appState.zoneId, appState.ipv6RecordId, appState0.ipv6Address)] ∧
      patchCalls evs =
        [patchRequest appState.apiKey appState.zoneId appState.ipv4RecordId b,
         patchRequest appState.apiKey appState.zoneId appState.ipv6RecordId
           appState0.ipv6Address] ∧
      appState0.ipv4Address = b := by
  obtain ⟨h4, hreq⟩ := checkAddresses_ipv4 w tr tr0 appState appState0 b hget hdet
  obtain ⟨f1, f2, f3, f4, _, _⟩ := checkAddresses_frame w tr appState
  obtain ⟨evs0, ht0, hu0, hp0, _⟩ := checkAddresses_trace w tr appState
  rw [hdet] at f1 f2 f3 f4 ht0
  simp only at f1 f2 f3 f4 ht0
  rw [← f1, ← f2, ← f3, ← h4] at hdo4
  rw [← f1, ← f2, ← f3, ← f4, ← h4] at hdo6
  rw [← f2, ← f3] at hurl4
  rw [← f2, ← f4] at hurl6
  rw [← f1, ← f2, ← f3, ← f4, ← h4]
  have hu1 := updateDNSRecord_of_response w tr0 _ _ _ _ r1 hurl4 hdo4
  have hu2 := updateDNSRecord_of_response w _ _ _ _ _ r2 hurl6 hdo6
  obtain ⟨evs1, ht1, hc1, hq1, _⟩ := updateDNSRecord_trace w tr0 appState0.apiKey
    appState0.zoneId appState0.ipv4RecordId appState0.ipv4Address
  rw [hu1] at ht1 hq1
  obtain ⟨evs2, ht2, hc2, hq2, _⟩ := updateDNSRecord_trace w
    (afterResponse (updateStart tr0 appState0.apiKey appState0.zoneId appState0.ipv4RecordId
      appState0.ipv4Address) (patchRequest appState0.apiKey appState0.zoneId
      appState0.ipv4RecordId appState0.ipv4Address) r1)
    appState0.apiKey appState0.zoneId appState0.ipv6RecordId appState0.ipv6Address
  rw [hu2] at ht2 hq2
  simp only at ht1 ht2
  rw [runApp_of_update w tr tr0 appState appState0 hdet (hreq hne), hu1]
  simp only
  rw [hu2]
  simp only
  refine ⟨evs0 ++ (evs1 ++ evs2), ?_, ?_, ?_, trivial⟩
  · rw [ht2, ht1, ht0]
    simp only [List.append_assoc]
  · rw [updateCalls_append, updateCalls_append, hu0, hc1, hc2]; rfl
  · rw [patchCalls_append, patchCalls_append, hp0, hq1 none rfl, hq2 none rfl]; rfl

/-- C2 at a concrete input: the stored address is `1.2.3.4`, the endpoint now
returns `5.6.7.8`. -/
theorem runApp_pushes_both_records_witness :
    ∃ evs, runApp (steadyWorld "5.6.7.8" [addrA] okResponse) [] settledState
        = ([] ++ evs, .returned (movedState, none)) ∧
      updateCalls evs =
        [("key", "zone", "rec4", "5.6.7.8"), ("key", "zone", "rec6", "2001:db8::1")] ∧
      patchCalls evs =
        [patchRequest "key" "zone" "rec4" "5.6.7.8",
         patchRequest "key" "zone" "rec6" "2001:db8::1"] ∧
      movedState.ipv4Address = "5.6.7.8" :=
  runApp_pushes_both_records (steadyWorld "5.6.7.8" [addrA] okResponse) [] _ settledState
    { movedState with updateRequired := true } "5.6.7.8" okResponse okResponse
    rfl (by decide) rfl rfl rfl rfl rfl

/-- C3: when `updateRequired` is set after detection and the IPv4 PATCH fails
at transport level, the cycle returns that error, `updateDNSRecord` is entered
once only (no IPv6 PATCH is sent), and the returned state still has
`updateRequired` set. -/
theorem runApp_stops_at_failed_ipv4_patch (w : World) (tr tr0 : Trace)
    (appState appState0 : AppState) (e : Err)
    (hdet : checkAddresses w tr appState = (tr0, appState0, none))
    (hreq : appState0.updateRequired = true)
    (hurl : w.parseURL (recordURL appState0.zoneId appState0.ipv4RecordId) = true)
    (hfail : w.httpDo
      (updateStart tr0 appState0.apiKey appState0.zoneId appState0.ipv4RecordId
        appState0.ipv4Address)
      (patchRequest appState0.apiKey appState0.zoneId appState0.ipv4RecordId
        appState0.ipv4Address) = .error e) :
    ∃ evs s1, runApp w tr appState = (tr ++ evs, .returned (s1, some e)) ∧
      s1.updateRequired = true ∧
      updateCalls evs =
        [(appState0.apiKey, appState0.zoneId, appState0.ipv4RecordId, appState0.ipv4Address)] ∧
      patchCalls evs =
        [patchRequest appState0.apiKey appState0.zoneId appState0.ipv4RecordId
          appState0.ipv4Address] := by
  obtain ⟨evs0, ht0, hu0, hp0, _⟩ := checkAddresses_trace w tr appState
  rw [hdet] at ht0
  simp only at ht0
  have hu1 := updateDNSRecord_of_error w tr0 _ _ _ _ e hurl hfail
  obtain ⟨evs1, ht1, hc1, hq1, _⟩ := updateDNSRecord_trace w tr0 appState0.apiKey
    appState0.zoneId appState0.ipv4RecordId appState0.ipv4Address
  rw [hu1] at ht1 hq1
  simp only at ht1
  rw [runApp_of_update w tr tr0 appState appState0 hdet hreq, hu1]
  simp only
  refine ⟨evs0 ++ evs1, appState0, ?_, hreq, ?_, ?_⟩
  · rw [ht1, ht0]
    simp only [List.append_assoc]
  · rw [updateCalls_append, hu0, hc1]; rfl
  · rw [patchCalls_append, hp0, hq1 (some e) rfl]; rfl

/-- C3 at a concrete input: first cycle from the start-up state against a
provider that refuses the connection. -/
theorem runApp_stops_at_failed_ipv4_patch_witness :
    ∃ evs s1, runApp (refusingWorld "1.2.3.4" [addrA]) [] startState
        = ([] ++ evs, .returned (s1, some "connection refused")) ∧
      s1.updateRequired = true ∧
      updateCalls evs = [("key", "zone", "rec4", "1.2.3.4")] ∧
      patchCalls evs = [patchRequest "key" "zone" "rec4" "1.2.3.4"] :=
  runApp_stops_at_failed_ipv4_patch (refusingWorld "1.2.3.4" [addrA]) [] _ startState
    { settledState with updateRequired := true } "connection refused" rfl rfl rfl rfl

/-- C7: `updateRequired` goes from true to false only through two successful
record updates of one cycle.  Detection never clears the flag; and when the
flag is set after detection and clear in the state a cycle returns, detection
had succeeded, the cycle returned no error, and `updateDNSRecord` was invoked
exactly twice after detection, for the IPv4 record and then for the IPv6
record, both invocations returning nil. -/
theorem updateRequired_cleared_only_by_both_updates (w : World) (tr tr0 : Trace)
    (appState appState0 : AppState) (e0 : Option Err)
    (hdet : checkAddresses w tr appState = (tr0, appState0, e0)) :
    (appState.updateRequired = true → appState0.updateRequired = true) ∧
    (∀ tr1 s1 err, appState0.updateRequired = true →
      runApp w tr appState = (tr1, .returned (s1, err)) → s1.updateRequired = false →
      e0 = none ∧ err = none ∧
      ∃ t evs,
        updateDNSRecord w tr0 appState0.apiKey appState0.zoneId appState0.ipv4RecordId
          appState0.ipv4Address = (t, .returned none) ∧
        updateDNSRecord w t appState0.apiKey appState0.zoneId appState0.ipv6RecordId
          appState0.ipv6Address = (tr1, .returned none) ∧
        tr1 = tr0 ++ evs ∧
        updateCalls evs =
          [(appState0.apiKey, appState0.zoneId, appState0.ipv4RecordId, appState0.ipv4Address),
           (appState0.apiKey, appState0.zoneId, appState0.ipv6RecordId,
             appState0.ipv6Address)]) := by
  constructor
  · intro h
    have hk := checkAddresses_keeps_updateRequired w tr appState h
    rw [hdet] at hk
    exact hk
  · intro tr1 s1 err hreq hrun hclear
    cases e0 with
    | some err0 =>
      rw [runApp_of_detection_error w tr tr0 appState appState0 err0 hdet] at hrun
      simp only [Prod.mk.injEq, Outcome.returned.injEq] at hrun
      obtain ⟨_, hs, _⟩ := hrun
      rw [← hs, hreq] at hclear
      exact absurd hclear (by decide)
    | none =>
      rcases runApp_update_returns w tr tr0 tr1 appState appState0 s1 err hdet hreq hrun
        with ⟨e1, _, hs, _⟩ | ⟨e1, t, _, hs, _, _⟩ | ⟨t, he, _, hu1, hu2⟩
      · rw [hs, hreq] at hclear
        exact absurd hclear (by decide)
      · rw [hs, hreq] at hclear
        exact absurd hclear (by decide)
      · obtain ⟨evs1, ht1, hc1, _, _⟩ := updateDNSRecord_trace w tr0 appState0.apiKey
          appState0.zoneId appState0.ipv4RecordId appState0.ipv4Address
        obtain ⟨evs2, ht2, hc2, _, _⟩ := updateDNSRecord_trace w t appState0.apiKey
          appState0.zoneId appState0.ipv6RecordId appState0.ipv6Address
        rw [hu1] at ht1
        rw [hu2] at ht2
        simp only at ht1 ht2
        refine ⟨rfl, he, t, evs1 ++ evs2, hu1, hu2, ?_, ?_⟩
        · rw [ht2, ht1, List.append_assoc]
        · rw [updateCalls_append, hc1, hc2]; rfl

/-- C7 at a concrete input: the first cycle from the start-up state, against
a provider that answers. -/
theorem updateRequired_cleared_only_by_both_updates_witness :
    ∃ t evs,
      updateDNSRecord (steadyWorld "1.2.3.4" [addrA] okResponse)
        (checkAddresses (steadyWorld "1.2.3.4" [addrA] okResponse) [] startState).1
        "key" "zone" "rec4" "1.2.3.4" = (t, .returned none) ∧
      updateDNSRecord (steadyWorld "1.2.3.4" [addrA] okResponse) t
        "key" "zone" "rec6" "2001:db8::1"
        = ((runApp (steadyWorld "1.2.3.4" [addrA] okResponse) [] startState).1,
            .returned none) ∧
      (runApp (steadyWorld "1.2.3.4" [addrA] okResponse) [] startState).1
        = (checkAddresses (steadyWorld "1.2.3.4" [addrA] okResponse) [] startState).1 ++ evs ∧
      updateCalls evs =
        [("key", "zone", "rec4", "1.2.3.4"), ("key", "zone", "rec6", "2001:db8::1")] :=
  ((updateRequired_cleared_only_by_both_updates (steadyWorld "1.2.3.4" [addrA] okResponse)
    [] _ startState { settledState with updateRequired := true } none rfl).2
    _ settledState none rfl rfl rfl).2.2

/-! ## The top-level loop -/

/-- C8: no retry.  When a cycle returns an error, the loop prints that error
and returns, whatever fuel is left: the final trace is the cycle's trace
followed by the print, so no further cycle runs; and the cycle's trace ends
with the call to the outside that failed, so no call follows the failing one. -/
theorem mainLoop_returns_on_first_error (w : World) (fuel : Nat) (tr tr1 : Trace)
    (appState s1 : AppState) (e : Err)
    (hrun : runApp w tr appState = (tr1, .returned (s1, some e))) :
    mainLoop w (fuel + 1) tr appState = (tr1 ++ [.printError e], .returnedOnError) ∧
    ∃ pre ev, tr1 = tr ++ pre ++ [ev] ∧ ev.failedWith e = true ∧
      ev.isExternalCall = true := by
  refine ⟨?_, runApp_error_trace w tr tr1 appState s1 e hrun⟩
  simp [mainLoop, hrun]

/-- C8 at a concrete input: the provider refuses the connection in the first
cycle; with fuel for a hundred cycles the loop still stops after the one
failed PATCH. -/
theorem mainLoop_returns_on_first_error_witness :
    (mainLoop (refusingWorld "1.2.3.4" [addrA]) 100 [] startState).2 = .returnedOnError ∧
    patchCalls (mainLoop (refusingWorld "1.2.3.4" [addrA]) 100 [] startState).1
      = [patchRequest "key" "zone" "rec4" "1.2.3.4"] :=
  have h := (mainLoop_returns_on_first_error (refusingWorld "1.2.3.4" [addrA]) 99 [] _
    startState { settledState with updateRequired := true } "connection refused" rfl).1
  ⟨by rw [h], by rw [h]; rfl⟩

/-! ## Start-up: the poll interval -/

theorem isDigit_iff (ch : Char) : ('0' ≤ ch ∧ ch ≤ '9') ↔ ch.isDigit = true := by
  simp only [Char.isDigit, Bool.and_eq_true, decide_eq_true_eq, ge_iff_le]
  exact Iff.rfl

/-- The digit loop of `Atoi` accepts exactly the runs of decimal digits and
yields their value. -/
theorem atoiDigits_eq (ds : List Char) (n : Nat) :
    atoiDigits ds n =
      if ds.all Char.isDigit then some (ds.foldl (fun n ch => n * 10 + (ch.toNat - 48)) n)
      else none := by
  induction ds generalizing n with
  | nil => rfl
  | cons ch rest ih =>
    unfold atoiDigits
    by_cases h : ch.isDigit = true
    · rw [if_pos ((isDigit_iff ch).2 h), ih]
      simp [h]
    · rw [if_neg (fun hc => h ((isDigit_iff ch).1 hc))]
      simp [h]

/-- What `Atoi` returns, in the vocabulary of the specification: a numeral
that is not a base-10 integer is a syntax error, one whose value does not fit
`int` is a range error, any other is parsed to its value. -/
theorem Atoi_eq (s : String) :
    Atoi s =
      if isBase10Integer s = true then
        if base10Value s < minInt ∨ maxInt < base10Value s then .error .ErrRange
        else .ok (base10Value s)
      else .error .ErrSyntax := by
  unfold Atoi isBase10Integer base10Value
  cases hs : s.toList with
  | nil => simp
  | cons c cs =>
    by_cases hm : c = '-'
    · subst hm
      simp only [true_or, if_true, atoiDigits_eq]
      cases cs with
      | nil => simp
      | cons d ds =>
        by_cases hall : (d :: ds).all Char.isDigit = true
        · simp [hall]
        · simp [hall]
    · by_cases hp : c = '+'
      · subst hp
        simp only [or_true, if_true, atoiDigits_eq]
        cases cs with
        | nil => simp
        | cons d ds =>
          by_cases hall : (d :: ds).all Char.isDigit = true
          · simp [hall]
          · simp [hall]
      · simp only [hm, hp, or_self, if_false, atoiDigits_eq]
        have e1 : (match c :: cs with
            | '-' :: ds => !ds.isEmpty && ds.all Char.isDigit
            | '+' :: ds => !ds.isEmpty && ds.all Char.isDigit
            | ds => !ds.isEmpty && ds.all Char.isDigit) = (c :: cs).all Char.isDigit := by
          split
          · rename_i h; exact absurd (List.cons.inj h).1 hm
          · rename_i h; exact absurd (List.cons.inj h).1 hp
          · simp
        have e2 : (match c :: cs with
            | '-' :: ds => -((ds.foldl (fun n ch => n * 10 + (ch.toNat - 48)) 0 : Nat) : Int)
            | '+' :: ds => ((ds.foldl (fun n ch => n * 10 + (ch.toNat - 48)) 0 : Nat) : Int)
            | ds => ((ds.foldl (fun n ch => n * 10 + (ch.toNat - 48)) 0 : Nat) : Int))
            = (((c :: cs).foldl (fun n ch => n * 10 + (ch.toNat - 48)) 0 : Nat) : Int) := by
          split
          · rename_i h; exact absurd (List.cons.inj h).1 hm
          · rename_i h; exact absurd (List.cons.inj h).1 hp
          · rfl
        rw [e1, e2]
        by_cases hall : (c :: cs).all Char.isDigit = true
        · simp [hall]
        · simp [hall]

/-- When start-up reaches the loop: the conditions do not involve `sleepTime`. -/
theorem initialState_ok_iff (st : Startup) :
    (∃ appState, initialState st = .ok appState) ↔
      (st.dotenvLoaded = true ∧ st.getenv "networkInterfaceName" ≠ "" ∧
        (st.interfaceByName (st.getenv "networkInterfaceName")).isSome = true) := by
  unfold initialState
  by_cases h1 : st.dotenvLoaded = true
  · by_cases h2 : st.getenv "networkInterfaceName" = ""
    · simp [h1, h2]
    · cases h3 : st.interfaceByName (st.getenv "networkInterfaceName") with
      | none => simp [h1, h2, h3]
      | some ni => simp [h1, h2, h3]
  · simp [h1]

/-- C6 as stated fails: `9223372036854775808` is a valid base-10 integer, yet
the poll interval is the default 300000, not the integer, because the value
does not fit a 64-bit `int` and `Atoi` reports a range error. -/
theorem sleepFromEnv_not_every_integer :
    ¬ (∀ s : String,
        ((s = "" ∨ isBase10Integer s = false) → sleepFromEnv s = 300000) ∧
        (isBase10Integer s = true → sleepFromEnv s = base10Value s)) := by
  intro h
  have h1 := (h "9223372036854775808").2 (by decide)
  revert h1
  decide

/-- C6, amended: the poll interval is 300000 when `sleepTime` is unset or
empty, is not a valid base-10 integer, or is one whose value lies outside the
range of a 64-bit `int`; it is the parsed integer when `sleepTime` is a valid
base-10 integer within that range; and whether start-up reaches the loop does
not depend on `sleepTime`. -/
theorem sleepFromEnv_spec (s : String) :
    ((s = "" ∨ isBase10Integer s = false) → sleepFromEnv s = 300000) ∧
    (isBase10Integer s = true → minInt ≤ base10Value s → base10Value s ≤ maxInt →
      sleepFromEnv s = base10Value s) ∧
    (isBase10Integer s = true → (base10Value s < minInt ∨ maxInt < base10Value s) →
      sleepFromEnv s = 300000) ∧
    (∀ st : Startup, st.getenv "sleepTime" = s →
      ((∃ appState, initialState st = .ok appState ∧ appState.sleep = sleepFromEnv s) ↔
        (st.dotenvLoaded = true ∧ st.getenv "networkInterfaceName" ≠ "" ∧
          (st.interfaceByName (st.getenv "networkInterfaceName")).isSome = true))) := by
  have hempty : isBase10Integer "" = false := by decide
  refine ⟨?_, ?_, ?_, ?_⟩
  · intro h
    have hb : isBase10Integer s = false := by
      rcases h with h | h
      · rw [h]; exact hempty
      · exact h
    unfold sleepFromEnv
    rw [Atoi_eq, hb]
    simp
  · intro hb hlo hhi
    have hne : s ≠ "" := by
      intro he; rw [he, hempty] at hb; exact absurd hb (by decide)
    unfold sleepFromEnv
    rw [Atoi_eq, hb, if_pos hne, if_pos rfl, if_neg (by
      intro h
      rcases h with h | h
      · exact absurd hlo (not_le.mpr h)
      · exact absurd hhi (not_le.mpr h))]
  · intro hb hout
    unfold sleepFromEnv
    rw [Atoi_eq, hb, if_pos rfl, if_pos hout]
    simp
  · intro st hst
    rw [← initialState_ok_iff st]
    constructor
    · rintro ⟨a, ha, _⟩
      exact ⟨a, ha⟩
    · rintro ⟨a, ha⟩
      exact ⟨a, ha, by rw [(initialState_ok st a ha).2.2.2, hst]⟩

/-- C6 at concrete inputs: a non-numeric value, a plain one, and one that is
too large. -/
theorem sleepFromEnv_spec_witness :
    sleepFromEnv "abc" = 300000 ∧ sleepFromEnv "1500" = 1500 ∧
      sleepFromEnv "9223372036854775808" = 300000 :=
  ⟨(sleepFromEnv_spec "abc").1 (Or.inr (by decide)),
   (sleepFromEnv_spec "1500").2.1 (by decide) (by decide) (by decide),
   (sleepFromEnv_spec "9223372036854775808").2.2.1 (by decide) (Or.inr (by decide))⟩

/-! ## The end-of-cycle `select` -/

theorem wrap64_of_range (x : Int) (h1 : -9223372036854775808 ≤ x)
    (h2 : x ≤ 9223372036854775807) : wrap64 x = x := by
  unfold wrap64
  norm_num
  omega

/-- C10 as stated fails.  With `sleepTime=-60000`, which `Atoi` accepts, both
timers are due at once and the scheduler may take the second case; with
`sleepTime=9223371976855` the product for the second timer wraps around to a
negative duration, so the second timer fires first. -/
theorem watchdog_not_always_after_sleep :
    sleepFromEnv "-60000" = -60000 ∧
    ¬ (firesAfter (sleepDuration (-60000)) < firesAfter (watchdogDuration (-60000))) ∧
    selectSleepTimer (steadyWorld "1.2.3.4" [] okResponse) [] (-60000) = false ∧
    sleepFromEnv "9223371976855" = 9223371976855 ∧
    firesAfter (watchdogDuration 9223371976855) < firesAfter (sleepDuration 9223371976855) ∧
    (∀ (w : World) (tr : Trace), selectSleepTimer w tr 9223371976855 = false) := by
  refine ⟨by decide, by decide, by decide, by decide, by decide, ?_⟩
  intro w tr
  unfold selectSleepTimer
  rw [if_neg (by decide), if_pos (by decide)]

/-- C10, amended: for every sleep value with `-60000 < sleep` and
`sleep ≤ 9223371976854` (so that neither product wraps around; the default
300000 is one), the second timer fires strictly after the first, and the
`select` takes the first case whatever the scheduler does. -/
theorem watchdog_after_sleep_in_range (sleep : Int) (hlo : -60000 < sleep)
    (hhi : sleep ≤ 9223371976854) :
    firesAfter (sleepDuration sleep) < firesAfter (watchdogDuration sleep) ∧
    ∀ (w : World) (tr : Trace), selectSleepTimer w tr sleep = true := by
  have h : firesAfter (sleepDuration sleep) < firesAfter (watchdogDuration sleep) := by
    unfold watchdogDuration sleepDuration firesAfter Millisecond
    rw [wrap64_of_range (sleep + 60000) (by omega) (by omega),
      wrap64_of_range ((sleep + 60000) * 1000000) (by omega) (by omega),
      wrap64_of_range (sleep * 1000000) (by omega) (by omega)]
    omega
  refine ⟨h, fun w tr => ?_⟩
  unfold selectSleepTimer
  rw [if_pos h]

/-- C10 at a concrete input: the default interval. -/
theorem watchdog_after_sleep_in_range_witness :
    firesAfter (sleepDuration (sleepFromEnv "")) < firesAfter (watchdogDuration (sleepFromEnv "")) ∧
    ∀ (w : World) (tr : Trace), selectSleepTimer w tr (sleepFromEnv "") = true :=
  watchdog_after_sleep_in_range (sleepFromEnv "") (by decide) (by decide)

/-! ## Two consecutive cycles -/

/-- The state a successful cycle returns is the detection's state with
`updateRequired` cleared. -/
theorem runApp_ok_state (w : World) (tr tr0 tr1 : Trace) (appState appState0 s1 : AppState)
    (hdet : checkAddresses w tr appState = (tr0, appState0, none))
    (hrun : runApp w tr appState = (tr1, .returned (s1, none))) :
    s1 = { appState0 with updateRequired := false } := by
  cases hreq : appState0.updateRequired with
  | false =>
    rw [runApp_of_no_update w tr tr0 appState appState0 hdet hreq] at hrun
    simp only [Prod.mk.injEq, Outcome.returned.injEq, and_true] at hrun
    rw [← hrun.2, ← hreq]
  | true =>
    rcases runApp_update_returns w tr tr0 tr1 appState appState0 s1 none hdet hreq hrun
      with ⟨e1, he, _⟩ | ⟨e1, t, he, _⟩ | ⟨t, _, hs, _⟩
    · simp at he
    · simp at he
    · exact hs

/-- C1 fails on an interface with two global addresses.  The first cycle, from
the start-up state, pushes both records, succeeds and returns the state
`twoAddressState` with `updateRequired` cleared.  The second cycle observes the
same body `1.2.3.4` and the same address list, and yet enters `updateDNSRecord`
twice and sends two PATCH requests. -/
theorem second_cycle_repushes_on_two_global_addresses :
    (runApp (steadyWorld "1.2.3.4" [addrA, addrB] okResponse) [] startState).2
      = .returned (twoAddressState, none) ∧
    twoAddressState.updateRequired = false ∧
    (runApp (steadyWorld "1.2.3.4" [addrA, addrB] okResponse)
      (runApp (steadyWorld "1.2.3.4" [addrA, addrB] okResponse) [] startState).1
      twoAddressState).2 = .returned (twoAddressState, none) ∧
    updateCalls ((runApp (steadyWorld "1.2.3.4" [addrA, addrB] okResponse)
      (runApp (steadyWorld "1.2.3.4" [addrA, addrB] okResponse) [] startState).1
      twoAddressState).1.drop
        (runApp (steadyWorld "1.2.3.4" [addrA, addrB] okResponse) [] startState).1.length)
      = [("key", "zone", "rec4", "1.2.3.4"), ("key", "zone", "rec6", "2001:db8::2")] ∧
    patchCalls ((runApp (steadyWorld "1.2.3.4" [addrA, addrB] okResponse)
      (runApp (steadyWorld "1.2.3.4" [addrA, addrB] okResponse) [] startState).1
      twoAddressState).1.drop
        (runApp (steadyWorld "1.2.3.4" [addrA, addrB] okResponse) [] startState).1.length)
      = [patchRequest "key" "zone" "rec4" "1.2.3.4",
         patchRequest "key" "zone" "rec6" "2001:db8::2"] := by
  refine ⟨rfl, rfl, rfl, rfl, rfl⟩

/-- Two consecutive cycles that observe the same body and the same address
list, the first one successful: when all qualifying addresses of the list read
the same (in particular when at most one qualifies), the second cycle enters
`updateDNSRecord` not at all, sends no PATCH, and returns the state unchanged
with `updateRequired` clear. -/
theorem runApp_second_cycle_quiet (w : World) (tr tr1 : Trace) (appState s1 : AppState)
    (b : String) (addresses : List Addr)
    (hget1 : w.httpGet tr = .body b)
    (haddrs1 : w.interfaceAddrs (tr ++ [.httpGet (.body b)]) appState.networkInterface
      = .ok addresses)
    (hrun1 : runApp w tr appState = (tr1, .returned (s1, none)))
    (hget2 : w.httpGet tr1 = .body b)
    (haddrs2 : w.interfaceAddrs (tr1 ++ [.httpGet (.body b)]) appState.networkInterface
      = .ok addresses)
    (hsame : ∀ a ∈ addresses, ∀ a1 ∈ addresses, qualifies a = true → qualifies a1 = true →
      addrString a = addrString a1) :
    ∃ evs, runApp w tr1 s1 = (tr1 ++ evs, .returned (s1, none)) ∧
      s1.updateRequired = false ∧ updateCalls evs = [] ∧ patchCalls evs = [] := by
  have hdet1 := checkAddresses_ok w tr appState b addresses hget1 haddrs1
  have hs1 := runApp_ok_state w tr _ tr1 appState _ s1 hdet1 hrun1
  obtain ⟨_, _, _, _, k5, _, k7, _⟩ := foldl_ipv6Step_frame addresses (afterIPv4 appState b)
  have h4 : s1.ipv4Address = b := by
    rw [hs1]
    show (addresses.foldl ipv6Step (afterIPv4 appState b)).ipv4Address = b
    rw [k5]
    unfold afterIPv4
    by_cases h : appState.ipv4Address = b <;> simp [h]
  have hni : s1.networkInterface = appState.networkInterface := by
    rw [hs1]
    show (addresses.foldl ipv6Step (afterIPv4 appState b)).networkInterface = _
    rw [k7, afterIPv4_networkInterface]
  have h6 : ∀ a ∈ addresses, qualifies a = true → addrString a = s1.ipv6Address := by
    intro a ha hq
    have hmem : a ∈ addresses.filter qualifies := List.mem_filter.2 ⟨ha, hq⟩
    have hne : addresses.filter qualifies ≠ [] := List.ne_nil_of_mem hmem
    have hz := List.getLast?_eq_getLast _ hne
    have hzmem := List.getLast_mem hne
    obtain ⟨hzin, hzq⟩ := List.mem_filter.1 hzmem
    rw [hs1]
    show addrString a = (addresses.foldl ipv6Step (afterIPv4 appState b)).ipv6Address
    rw [foldl_ipv6Step_last addresses _ _ hz]
    exact hsame a ha _ hzin hq hzq
  have hafter : afterIPv4 s1 b = s1 := by
    unfold afterIPv4; simp [h4]
  have hreq : s1.updateRequired = false := by rw [hs1]
  rw [← hni] at haddrs2
  have hdet2 := checkAddresses_ok w tr1 s1 b addresses hget2 haddrs2
  rw [hafter, foldl_ipv6Step_of_same addresses s1 h6] at hdet2
  rw [runApp_of_no_update w tr1 _ s1 s1 hdet2 hreq]
  refine ⟨[.httpGet (.body b), .interfaceAddrs s1.networkInterface (.ok addresses),
    .println (statusMessage s1), .println " No update required"], ?_, hreq, rfl, rfl⟩
  simp

/-- The quiet second cycle at a concrete input: one global address. -/
theorem runApp_second_cycle_quiet_witness :
    ∃ evs, runApp (steadyWorld "1.2.3.4" [addrLinkLocal, addrA, addrV4] okResponse)
        (runApp (steadyWorld "1.2.3.4" [addrLinkLocal, addrA, addrV4] okResponse) []
          startState).1 settledState
        = ((runApp (steadyWorld "1.2.3.4" [addrLinkLocal, addrA, addrV4] okResponse) []
          startState).1 ++ evs, .returned (settledState, none)) ∧
      settledState.updateRequired = false ∧ updateCalls evs = [] ∧ patchCalls evs = [] :=
  runApp_second_cycle_quiet (steadyWorld "1.2.3.4" [addrLinkLocal, addrA, addrV4] okResponse)
    [] _ startState settledState "1.2.3.4" [addrLinkLocal, addrA, addrV4] rfl rfl rfl rfl rfl
    (by decide)

/-! ## Further properties -/

/-- Whatever a cycle returns, the credentials, the record identifiers, the
poll interval and the interface of the state are those it was given. -/
theorem runApp_frame (w : World) (tr tr1 : Trace) (appState s1 : AppState)
    (err : Option Err) (hrun : runApp w tr appState = (tr1, .returned (s1, err))) :
    s1.apiKey = appState.apiKey ∧ s1.zoneId = appState.zoneId ∧
    s1.ipv4RecordId = appState.ipv4RecordId ∧ s1.ipv6RecordId = appState.ipv6RecordId ∧
    s1.sleep = appState.sleep ∧ s1.networkInterface = appState.networkInterface := by
  have hf := checkAddresses_frame w tr appState
  rcases hdet : checkAddresses w tr appState with ⟨tr0, appState0, e0⟩
  rw [hdet] at hf
  simp only at hf
  have hcase : s1 = appState0 ∨ s1 = { appState0 with updateRequired := false } := by
    cases e0 with
    | some err0 =>
      rw [runApp_of_detection_error w tr tr0 appState appState0 err0 hdet] at hrun
      simp only [Prod.mk.injEq, Outcome.returned.injEq] at hrun
      exact Or.inl hrun.2.1.symm
    | none =>
      cases hreq : appState0.updateRequired with
      | false =>
        rw [runApp_of_no_update w tr tr0 appState appState0 hdet hreq] at hrun
        simp only [Prod.mk.injEq, Outcome.returned.injEq] at hrun
        exact Or.inl hrun.2.1.symm
      | true =>
        rcases runApp_update_returns w tr tr0 tr1 appState appState0 s1 err hdet hreq hrun
          with ⟨_, _, hs, _⟩ | ⟨_, _, _, hs, _⟩ | ⟨_, _, hs, _⟩
        · exact Or.inl hs
        · exact Or.inl hs
        · exact Or.inr hs
  rcases hcase with hs | hs <;> rw [hs] <;> exact hf

/-- The frame of a cycle at a concrete input. -/
theorem runApp_frame_witness : movedState.apiKey = "key" ∧ movedState.sleep = 300000 :=
  have h := runApp_frame (steadyWorld "5.6.7.8" [addrA] okResponse) [] _ settledState
    movedState none rfl
  ⟨h.1, h.2.2.2.2.1⟩

/-- When `http.NewRequest` cannot parse the record URL, `updateDNSRecord`
neither returns nil nor an error: it panics on the nil request, after its
first message and before any PATCH is sent. -/
theorem updateDNSRecord_panics_on_unparsable_url (w : World) (tr : Trace)
    (apiKey zoneId recordId ipAddress : String)
    (hurl : w.parseURL (recordURL zoneId recordId) = false) :
    (updateDNSRecord w tr apiKey zoneId recordId ipAddress).2 = .panicked ∧
    patchCalls (updateDNSRecord w tr apiKey zoneId recordId ipAddress).1 = patchCalls tr := by
  rw [updateDNSRecord_of_bad_url w tr apiKey zoneId recordId ipAddress hurl]
  refine ⟨rfl, ?_⟩
  show patchCalls (updateStart tr apiKey zoneId recordId ipAddress) = patchCalls tr
  unfold updateStart
  rw [patchCalls_append]
  simp [patchCalls]

/-- The panic at a concrete input: a zone identifier with a broken escape. -/
theorem updateDNSRecord_panics_on_unparsable_url_witness :
    (updateDNSRecord (unparsableWorld "1.2.3.4" []) [] "key" "%zz" "rec4" "1.2.3.4").2
      = .panicked :=
  (updateDNSRecord_panics_on_unparsable_url (unparsableWorld "1.2.3.4" []) []
    "key" "%zz" "rec4" "1.2.3.4" rfl).1

end DnsUpdater
